import Mathlib

/-!
# GLyphy demo: font manager and cairo helpers

A shallow embedding of `demo/demo-font.cc` and `src/cairo-helper.hh`.

Conventions of the embedding

* C `double` values are exact rationals (`ℚ`); the statements below are about the
  arithmetic the code performs, not about rounding.  The literal `1e-6` that the code
  compares with is the exact value of that `double`.
* C `unsigned int` values are naturals, reduced modulo `2 ^ 32` wherever the code does
  arithmetic on them.
* A pointer argument `demo_font_t *` is an `Option`: `none` is `NULL`, `some f` points to
  a live object with contents `f`.  As the state left behind by a call, `none` means that
  no live object is behind the handle any more (it was `NULL`, or it has been freed).
* `die (msg)` ends the process; a call that dies does not return to its caller.
* Calls into collaborators whose code is not part of these two files (FreeType, the arc
  encoder, the atlas, cairo) are recorded as events or commands and their results are
  taken from an environment.
-/

namespace GLyphy

/-! ## Data model of `demo-font.cc` -/

/-- Number of values of a C `unsigned int`. -/
def UINT_MOD : Nat := 4294967296

/-- The bounding box type `glyphy_extents_t` (four `double` fields). -/
structure glyphy_extents_t where
  min_x : ℚ
  min_y : ℚ
  max_x : ℚ
  max_y : ℚ
deriving DecidableEq, Repr

/-- Modelled from the spec: `glyphy_extents_scale` is declared in `glyphy.h` and its body
is not among the sources; it multiplies the x coordinates by `x_scale` and the
y coordinates by `y_scale`. -/
def glyphy_extents_scale (extents : glyphy_extents_t) (x_scale y_scale : ℚ) :
    glyphy_extents_t :=
  { min_x := extents.min_x * x_scale
    min_y := extents.min_y * y_scale
    max_x := extents.max_x * x_scale
    max_y := extents.max_y * y_scale }

/-- Modelled from the spec: the declaration of `glyph_info_t` (`demo-font.h`) is not among
the sources; a glyph record holds a layout descriptor, a bounding box, an advance width
and the atlas placement coordinates, which are exactly the fields `demo-font.cc` writes. -/
structure glyph_info_t where
  extents : glyphy_extents_t
  advance : ℚ
  glyph_layout : Nat
  atlas_x : Nat
  atlas_y : Nat
deriving DecidableEq, Repr

/-- One texel of an encoded glyph (`glyphy_rgba_t`). -/
structure glyphy_rgba_t where
  r : Nat
  g : Nat
  b : Nat
  a : Nat
deriving DecidableEq, Repr

/-- An arc endpoint handed to the accumulator callback (`glyphy_arc_endpoint_t`). -/
structure glyphy_arc_endpoint_t where
  x : ℚ
  y : ℚ
  d : ℚ
deriving DecidableEq, Repr

/-- The `format` tag of a loaded FreeType glyph slot. -/
inductive FT_Glyph_Format where
  | none
  | composite
  | bitmap
  | outline
  | plotter
deriving DecidableEq, Repr

/-- A FreeType outline: points, tags and contour end indices. -/
structure FT_Outline where
  points : List (Int × Int)
  tags : List Nat
  contours : List Nat
deriving DecidableEq, Repr

/-- The part of `face->glyph` that `encode_ft_glyph` reads after `FT_Load_Glyph`. -/
structure FT_GlyphSlot where
  format : FT_Glyph_Format
  outline : FT_Outline
  horiAdvance : Int
deriving DecidableEq, Repr

/-- The part of `FT_Face` that `encode_ft_glyph` reads: `units_per_EM` and an identifier
standing for the rest of the face. -/
structure FT_Face where
  units_per_EM : Nat
  id : Nat
deriving DecidableEq, Repr

/-- What `glyphy_arc_list_encode_rgba` writes through its out-parameters on success. -/
structure arc_list_encoding where
  buffer : List glyphy_rgba_t
  avg_fetch_achieved : ℚ
  output_len : Nat
  glyph_layout : Nat
  extents : glyphy_extents_t
deriving DecidableEq, Repr

/-- `typedef hash_map<unsigned int, glyph_info_t> glyph_cache_t`: a finite map with unique
keys, kept as an association list. -/
abbrev glyph_cache_t := List (Nat × glyph_info_t)

/-- The lookup `cache->find (glyph_index)`; `none` is `cache->end ()`. -/
def glyph_cache_t.find : glyph_cache_t → Nat → Option glyph_info_t
  | [], _ => none
  | (k, v) :: rest, glyph_index =>
    if k = glyph_index then some v else glyph_cache_t.find rest glyph_index

/-- The assignment `(*cache)[glyph_index] = info`: overwrites the entry of the key when it
exists and inserts one otherwise. -/
def glyph_cache_t.assign : glyph_cache_t → Nat → glyph_info_t → glyph_cache_t
  | [], glyph_index, info => [(glyph_index, info)]
  | (k, v) :: rest, glyph_index, info =>
    if k = glyph_index then (k, info) :: rest
    else (k, v) :: glyph_cache_t.assign rest glyph_index info

/-- The struct `demo_font_t`; `Atlas` is the state of the atlas behind `font->atlas`. -/
structure demo_font_t (Atlas : Type) where
  refcount : Nat
  face : FT_Face
  glyph_cache : glyph_cache_t
  atlas : Atlas

/-- The collaborators of `demo-font.cc` whose code is not in that file, and the two
constants it takes from `demo-font.h`.  A result `none` stands for the failure return of
the call (an error code other than `FT_Err_Ok`, or `false`). -/
structure Env (Atlas : Type) where
  TOLERANCE : ℚ
  MIN_FONT_SIZE : ℚ
  FT_Load_Glyph : FT_Face → Nat → Option FT_GlyphSlot
  outline_decompose : FT_Outline → ℚ → Option (List glyphy_arc_endpoint_t)
  glyphy_arc_list_encode_rgba :
    List glyphy_arc_endpoint_t → Nat → ℚ → Nat → Option arc_list_encoding
  demo_atlas_alloc : Atlas → List glyphy_rgba_t → Nat → Atlas × Nat × Nat

/-- Calls that the font manager makes and that the statements below count.  The glyph
index carried by `encode_ft_glyph` and `demo_atlas_alloc` is the index for which the call
was made. -/
inductive Event where
  | new_glyph_cache
  | demo_atlas_reference
  | demo_atlas_destroy
  | delete_glyph_cache
  | free_font
  | encode_ft_glyph (glyph_index : Nat)
  | demo_atlas_alloc (glyph_index : Nat)
deriving DecidableEq, Repr

/-- The two ways a call can fail to return: a dereference of `NULL`, or `die (msg)`. -/
inductive Abort where
  | null_dereference
  | die (msg : String)
deriving DecidableEq, Repr

/-! ## Lifecycle: `demo_font_create`, `demo_font_reference`, `demo_font_destroy` -/

/-- The function `demo_font_create`: the new object and the calls made while building it. -/
def demo_font_create {Atlas : Type} (face : FT_Face) (atlas : Atlas) :
    demo_font_t Atlas × List Event :=
  ({ refcount := 1, face := face, glyph_cache := [], atlas := atlas },
   [Event.new_glyph_cache, Event.demo_atlas_reference])

/-- The function `demo_font_reference`: `if (font) font->refcount++; return font;`.  The
increment is that of an `unsigned int`. -/
def demo_font_reference {Atlas : Type} (font : Option (demo_font_t Atlas)) :
    Option (demo_font_t Atlas) :=
  match font with
  | none => none
  | some f => some { f with refcount := (f.refcount + 1) % UINT_MOD }

/-- The events of the release path of `demo_font_destroy`. -/
def release_events : List Event :=
  [Event.demo_atlas_destroy, Event.delete_glyph_cache, Event.free_font]

/-- The function `demo_font_destroy`: `if (!font || --font->refcount) return;` and then the
release of the atlas reference, of the cache and of the object.  The decrement is that of
an `unsigned int`: `refcount - 1` modulo `2 ^ 32`, written as `2 ^ 32 - 1 + refcount`. -/
def demo_font_destroy {Atlas : Type} (font : Option (demo_font_t Atlas)) :
    Option (demo_font_t Atlas) × List Event :=
  match font with
  | none => (none, [])
  | some f =>
    let refcount := (UINT_MOD - 1 + f.refcount) % UINT_MOD
    if refcount ≠ 0 then (some { f with refcount := refcount }, [])
    else (none, release_events)

/-- The function `demo_font_get_face`: `return font->face;`. -/
def demo_font_get_face {Atlas : Type} (font : Option (demo_font_t Atlas)) :
    Except Abort FT_Face :=
  match font with
  | none => Except.error Abort.null_dereference
  | some f => Except.ok f.face

/-- The function `demo_font_get_atlas`: `return font->atlas;`. -/
def demo_font_get_atlas {Atlas : Type} (font : Option (demo_font_t Atlas)) :
    Except Abort Atlas :=
  match font with
  | none => Except.error Abort.null_dereference
  | some f => Except.ok f.atlas

/-! ## Encoding and lookup -/

/-- What `encode_ft_glyph` leaves in its buffer and out-parameters when it returns. -/
structure encoded_glyph where
  buffer : List glyphy_rgba_t
  output_len : Nat
  glyph_layout : Nat
  extents : glyphy_extents_t
  advance : ℚ
deriving DecidableEq, Repr

/-- The function `encode_ft_glyph`.  `Except.error msg` is `die (msg)`.  The two `printf`
calls are left out. -/
def encode_ft_glyph {Atlas : Type} (env : Env Atlas) (face : FT_Face) (glyph_index : Nat)
    (tolerance_per_em : ℚ) (buffer_len : Nat) : Except String encoded_glyph :=
  match env.FT_Load_Glyph face glyph_index with
  | none => Except.error "Failed loading FreeType glyph"
  | some glyph =>
    if glyph.format ≠ FT_Glyph_Format.outline then
      Except.error "FreeType loaded glyph format is not outline"
    else
      let upem : ℚ := (face.units_per_EM : ℚ)
      let tolerance : ℚ := upem * tolerance_per_em
      let faraway : ℚ := upem / env.MIN_FONT_SIZE
      match env.outline_decompose glyph.outline tolerance with
      | none => Except.error "Failed converting glyph outline to arcs"
      | some endpoints =>
        match env.glyphy_arc_list_encode_rgba endpoints buffer_len faraway 4 with
        | none => Except.error "Failed encoding arcs"
        | some enc =>
          let extents : glyphy_extents_t :=
            { min_x := enc.extents.min_x / upem
              min_y := enc.extents.min_y / upem
              max_x := enc.extents.max_x / upem
              max_y := enc.extents.max_y / upem }
          let extents := glyphy_extents_scale extents (1 / upem) (1 / upem)
          Except.ok
            { buffer := enc.buffer
              output_len := enc.output_len
              glyph_layout := enc.glyph_layout
              extents := extents
              advance := (glyph.horiAdvance : ℚ) / upem }

/-- The function `_demo_font_upload_glyph`: encodes into a buffer of 4096 texels and
places the result in the atlas.  Returns the events, and on return the new atlas state and
the record with the five fields written. -/
def _demo_font_upload_glyph {Atlas : Type} (env : Env Atlas) (font : demo_font_t Atlas)
    (glyph_index : Nat) (glyph_info : glyph_info_t) :
    List Event × Except String (Atlas × glyph_info_t) :=
  match encode_ft_glyph env font.face glyph_index env.TOLERANCE 4096 with
  | Except.error msg => ([Event.encode_ft_glyph glyph_index], Except.error msg)
  | Except.ok enc =>
    let placed := env.demo_atlas_alloc font.atlas enc.buffer enc.output_len
    ([Event.encode_ft_glyph glyph_index, Event.demo_atlas_alloc glyph_index],
     Except.ok (placed.1,
       { glyph_info with
         glyph_layout := enc.glyph_layout
         extents := enc.extents
         advance := enc.advance
         atlas_x := placed.2.1
         atlas_y := placed.2.2 }))

/-- The outcome of one `demo_font_lookup_glyph` call: the object behind the handle when
control left the function, the calls made, and either the record written to `*glyph_info`
or the reason the call did not return. -/
structure lookup_outcome (Atlas : Type) where
  font : Option (demo_font_t Atlas)
  events : List Event
  result : Except Abort glyph_info_t

/-- The function `demo_font_lookup_glyph`. -/
def demo_font_lookup_glyph {Atlas : Type} (env : Env Atlas)
    (font : Option (demo_font_t Atlas)) (glyph_index : Nat) (glyph_info : glyph_info_t) :
    lookup_outcome Atlas :=
  match font with
  | none => { font := none, events := [], result := Except.error Abort.null_dereference }
  | some f =>
    match f.glyph_cache.find glyph_index with
    | none =>
      match _demo_font_upload_glyph env f glyph_index glyph_info with
      | (events, Except.error msg) =>
        { font := some f, events := events, result := Except.error (Abort.die msg) }
      | (events, Except.ok (atlas, info)) =>
        { font := some { f with
                    atlas := atlas
                    glyph_cache := f.glyph_cache.assign glyph_index info }
          events := events
          result := Except.ok info }
    | some info => { font := some f, events := [], result := Except.ok info }

/-- Runs `demo_font_lookup_glyph` for each request in turn on the same handle.  A request
is a glyph index and the contents of the caller's `*glyph_info` before the call.  When a
call does not return, the process has ended and the remaining requests are not made. -/
structure lookup_trace (Atlas : Type) where
  font : Option (demo_font_t Atlas)
  events : List Event
  returned : List (Nat × glyph_info_t)
  aborted : Option Abort

/-- The trace of a sequence of `demo_font_lookup_glyph` calls. -/
def lookup_sequence {Atlas : Type} (env : Env Atlas) :
    Option (demo_font_t Atlas) → List (Nat × glyph_info_t) → lookup_trace Atlas
  | font, [] => { font := font, events := [], returned := [], aborted := none }
  | font, (glyph_index, glyph_info) :: rest =>
    let out := demo_font_lookup_glyph env font glyph_index glyph_info
    match out.result with
    | Except.error e =>
      { font := out.font, events := out.events, returned := [], aborted := some e }
    | Except.ok info =>
      let tr := lookup_sequence env out.font rest
      { font := tr.font
        events := out.events ++ tr.events
        returned := (glyph_index, info) :: tr.returned
        aborted := tr.aborted }

/-- A call on the lifecycle of a handle. -/
inductive RefOp where
  | reference
  | destroy
deriving DecidableEq, Repr

/-- One executed lifecycle call: the refcount before it, the call, and the events of it. -/
structure ref_step where
  before : Nat
  op : RefOp
  events : List Event
deriving DecidableEq, Repr

/-- Runs `demo_font_reference` and `demo_font_destroy` calls in turn on a live handle.
Once the object has been freed the handle is dangling and the remaining calls are not
made. -/
def lifecycle {Atlas : Type} : demo_font_t Atlas → List RefOp → List ref_step
  | _, [] => []
  | f, RefOp.reference :: rest =>
    { before := f.refcount, op := RefOp.reference, events := [] } ::
      (match demo_font_reference (some f) with
       | some g => lifecycle g rest
       | none => [])
  | f, RefOp.destroy :: rest =>
    { before := f.refcount, op := RefOp.destroy, events := (demo_font_destroy (some f)).2 } ::
      (match (demo_font_destroy (some f)).1 with
       | some g => lifecycle g rest
       | none => [])

/-! ## Geometry and the cairo recorder used by `cairo-helper.hh` -/

namespace Geometry

/-- Modelled from the spec: `glyphy/geometry.hh` is not among the sources; a point has
coordinates `x` and `y`. -/
structure Point where
  x : ℚ
  y : ℚ
deriving DecidableEq, Repr

/-- Modelled from the spec: `glyphy/geometry.hh` is not among the sources; a vector has
components `dx` and `dy`. -/
structure Vector where
  dx : ℚ
  dy : ℚ
deriving DecidableEq, Repr

/-- Modelled from the spec: `glyphy/geometry.hh` is not among the sources; the line
`a * x + b * y = c`. -/
structure Line where
  a : ℚ
  b : ℚ
  c : ℚ
deriving DecidableEq, Repr

/-- Modelled from the spec: `glyphy/geometry.hh` is not among the sources; a circle has a
centre `c` and a radius `r`. -/
structure Circle where
  c : Point
  r : ℚ
deriving DecidableEq, Repr

/-- Modelled from the spec: `glyphy/geometry.hh` is not among the sources; an arc has two
endpoints and the signed curvature value `d`. -/
structure Arc where
  p0 : Point
  p1 : Point
  d : ℚ
deriving DecidableEq, Repr

/-- Modelled from the spec: the difference of two points (`operator-` of `geometry.hh`,
not among the sources) is the vector between them. -/
def Point.sub (p q : Point) : Vector := { dx := p.x - q.x, dy := p.y - q.y }

/-- Modelled from the spec: a point moved by a vector (`operator+` of `geometry.hh`, not
among the sources). -/
def Point.add (p : Point) (v : Vector) : Point := { x := p.x + v.dx, y := p.y + v.dy }

/-- Modelled from the spec: a vector multiplied by a scalar (`operator*` of
`geometry.hh`, not among the sources). -/
def Vector.scale (s : ℚ) (v : Vector) : Vector := { dx := s * v.dx, dy := s * v.dy }

instance : HSub Point Point Vector := ⟨Point.sub⟩
instance : HAdd Point Vector Point := ⟨Point.add⟩
instance : HMul ℚ Vector Vector := ⟨Vector.scale⟩

/-- The functions of `geometry.hh` and of the C library that involve square roots or
trigonometry: the circle through an arc, the polar angle of a vector, and the cosine and
sine with which cairo places the end of an arc. -/
structure Numerics where
  circle : Arc → Circle
  angle : Vector → ℚ
  cos : ℚ → ℚ
  sin : ℚ → ℚ

/-- The point at parameter `t` of the quadratic Bézier curve with control points
`p0 p1 p2`. -/
def quadratic_point (p0 p1 p2 : Point) (t : ℚ) : Point :=
  { x := (1 - t) ^ 2 * p0.x + 2 * (1 - t) * t * p1.x + t ^ 2 * p2.x
    y := (1 - t) ^ 2 * p0.y + 2 * (1 - t) * t * p1.y + t ^ 2 * p2.y }

/-- The point at parameter `t` of the cubic Bézier curve with control points
`p0 p1 p2 p3`. -/
def cubic_point (p0 p1 p2 p3 : Point) (t : ℚ) : Point :=
  { x := (1 - t) ^ 3 * p0.x + 3 * (1 - t) ^ 2 * t * p1.x + 3 * (1 - t) * t ^ 2 * p2.x
         + t ^ 3 * p3.x
    y := (1 - t) ^ 3 * p0.y + 3 * (1 - t) ^ 2 * t * p1.y + 3 * (1 - t) * t ^ 2 * p2.y
         + t ^ 3 * p3.y }

end Geometry

namespace Cairo

open Geometry

/-- A call of the cairo C API with its arguments. -/
inductive Cmd where
  | move_to (x y : ℚ)
  | line_to (x y : ℚ)
  | rel_line_to (dx dy : ℚ)
  | curve_to (x1 y1 x2 y2 x3 y3 : ℚ)
  | arc (xc yc radius angle1 angle2 : ℚ)
  | arc_negative (xc yc radius angle1 angle2 : ℚ)
  | new_sub_path
  | close_path
  | stroke
  | save
  | restore
  | set_line_cap_round
  | set_line_width (width : ℚ)
deriving DecidableEq, Repr

/-- The cairo context `cairo_t` as a recorder: the calls made so far, the current point,
the start of the current sub-path, the line width and the stack of saved line widths. -/
structure cairo_t where
  cmds : List Cmd
  current : Option Point
  start : Option Point
  line_width : ℚ
  saved : List ℚ
deriving DecidableEq, Repr

/-- The call `cairo_move_to (cr, x, y)`. -/
def cairo_move_to (cr : cairo_t) (x y : ℚ) : cairo_t :=
  { cr with cmds := cr.cmds ++ [Cmd.move_to x y]
            current := some ⟨x, y⟩
            start := some ⟨x, y⟩ }

/-- The call `cairo_line_to (cr, x, y)`; without a current point it acts as a move. -/
def cairo_line_to (cr : cairo_t) (x y : ℚ) : cairo_t :=
  { cr with cmds := cr.cmds ++ [Cmd.line_to x y]
            current := some ⟨x, y⟩
            start := if cr.current.isSome then cr.start else some ⟨x, y⟩ }

/-- The call `cairo_rel_line_to (cr, dx, dy)`. -/
def cairo_rel_line_to (cr : cairo_t) (dx dy : ℚ) : cairo_t :=
  { cr with cmds := cr.cmds ++ [Cmd.rel_line_to dx dy]
            current := cr.current.map (fun p => ⟨p.x + dx, p.y + dy⟩) }

/-- The call `cairo_curve_to (cr, x1, y1, x2, y2, x3, y3)`. -/
def cairo_curve_to (cr : cairo_t) (x1 y1 x2 y2 x3 y3 : ℚ) : cairo_t :=
  { cr with cmds := cr.cmds ++ [Cmd.curve_to x1 y1 x2 y2 x3 y3]
            current := some ⟨x3, y3⟩
            start := if cr.current.isSome then cr.start else some ⟨x1, y1⟩ }

/-- The call `cairo_arc (cr, xc, yc, radius, angle1, angle2)` of the C API. -/
def cairo_arc (N : Numerics) (cr : cairo_t) (xc yc radius angle1 angle2 : ℚ) : cairo_t :=
  { cr with cmds := cr.cmds ++ [Cmd.arc xc yc radius angle1 angle2]
            current := some ⟨xc + radius * N.cos angle2, yc + radius * N.sin angle2⟩
            start := if cr.current.isSome then cr.start
                     else some ⟨xc + radius * N.cos angle1, yc + radius * N.sin angle1⟩ }

/-- The call `cairo_arc_negative (cr, xc, yc, radius, angle1, angle2)`. -/
def cairo_arc_negative (N : Numerics) (cr : cairo_t) (xc yc radius angle1 angle2 : ℚ) :
    cairo_t :=
  { cr with cmds := cr.cmds ++ [Cmd.arc_negative xc yc radius angle1 angle2]
            current := some ⟨xc + radius * N.cos angle2, yc + radius * N.sin angle2⟩
            start := if cr.current.isSome then cr.start
                     else some ⟨xc + radius * N.cos angle1, yc + radius * N.sin angle1⟩ }

/-- The call `cairo_new_sub_path (cr)`. -/
def cairo_new_sub_path (cr : cairo_t) : cairo_t :=
  { cr with cmds := cr.cmds ++ [Cmd.new_sub_path], current := none, start := none }

/-- The call `cairo_close_path (cr)`. -/
def cairo_close_path (cr : cairo_t) : cairo_t :=
  { cr with cmds := cr.cmds ++ [Cmd.close_path]
            current := if cr.current.isSome then cr.start else none }

/-- The call `cairo_stroke (cr)`; the path is cleared. -/
def cairo_stroke (cr : cairo_t) : cairo_t :=
  { cr with cmds := cr.cmds ++ [Cmd.stroke], current := none, start := none }

/-- The call `cairo_save (cr)`. -/
def cairo_save (cr : cairo_t) : cairo_t :=
  { cr with cmds := cr.cmds ++ [Cmd.save], saved := cr.line_width :: cr.saved }

/-- The call `cairo_restore (cr)`. -/
def cairo_restore (cr : cairo_t) : cairo_t :=
  match cr.saved with
  | [] => { cr with cmds := cr.cmds ++ [Cmd.restore] }
  | w :: rest => { cr with cmds := cr.cmds ++ [Cmd.restore], line_width := w, saved := rest }

/-- The call `cairo_set_line_cap (cr, CAIRO_LINE_CAP_ROUND)`. -/
def cairo_set_line_cap_round (cr : cairo_t) : cairo_t :=
  { cr with cmds := cr.cmds ++ [Cmd.set_line_cap_round] }

/-- The call `cairo_set_line_width (cr, width)`. -/
def cairo_set_line_width (cr : cairo_t) (width : ℚ) : cairo_t :=
  { cr with cmds := cr.cmds ++ [Cmd.set_line_width width], line_width := width }

/-- The call `cairo_get_line_width (cr)`. -/
def cairo_get_line_width (cr : cairo_t) : ℚ := cr.line_width

/-- The call `cairo_get_current_point (cr, &x, &y)`; `(0, 0)` without a current point. -/
def cairo_get_current_point (cr : cairo_t) : ℚ × ℚ :=
  match cr.current with
  | some p => (p.x, p.y)
  | none => (0, 0)

/-- Whether a call is one of the two circular-arc calls. -/
def Cmd.is_arc : Cmd → Bool
  | Cmd.arc _ _ _ _ _ => true
  | Cmd.arc_negative _ _ _ _ _ => true
  | _ => false

/-- Whether a call adds a straight line to the path (`line_to` or `rel_line_to`). -/
def Cmd.is_line : Cmd → Bool
  | Cmd.line_to _ _ => true
  | Cmd.rel_line_to _ _ => true
  | _ => false

/-- The calls made on a context since the state `before`. -/
def emitted (before after : cairo_t) : List Cmd := after.cmds.drop before.cmds.length

end Cairo

/-! ## The helpers of `cairo-helper.hh` -/

namespace CairoHelper

open Geometry Cairo

/-- The overload `cairo_move_to (cr, p)` for a point. -/
def cairo_move_to (cr : cairo_t) (p : Point) : cairo_t := Cairo.cairo_move_to cr p.x p.y

/-- The overload `cairo_line_to (cr, p)` for a point. -/
def cairo_line_to (cr : cairo_t) (p : Point) : cairo_t := Cairo.cairo_line_to cr p.x p.y

/-- The constant `BIG` of `cairo_line`. -/
def BIG : Nat := 10000

/-- The loop `for (unsigned int i = ...; i <= BIG; i += 2*BIG) body` of `cairo_line`, from
the value `i` of the counter; `none` when the fuel runs out before the loop exits. -/
def cairo_line_loop (body : Nat → cairo_t → cairo_t) : Nat → Nat → cairo_t → Option cairo_t
  | 0, _, _ => none
  | fuel + 1, i, cr =>
    if i ≤ BIG then cairo_line_loop body fuel ((i + 2 * BIG) % UINT_MOD) (body i cr)
    else some cr

/-- The function `cairo_line`.  The counter starts at `-BIG` converted to `unsigned int`,
and is converted to `double` where it is used as a coordinate. -/
def cairo_line (fuel : Nat) (cr : cairo_t) (l : Line) : Option cairo_t :=
  let cr := cairo_new_sub_path cr
  let first : Nat := (UINT_MOD - BIG) % UINT_MOD
  if l.a = 0 then
    cairo_line_loop (fun i cr => Cairo.cairo_line_to cr (i : ℚ) (l.c / l.b)) fuel first cr
  else if l.b = 0 then
    cairo_line_loop (fun i cr => Cairo.cairo_line_to cr (l.c / l.a) (i : ℚ)) fuel first cr
  else
    cairo_line_loop (fun i cr => Cairo.cairo_line_to cr (i : ℚ) ((l.c - l.a * (i : ℚ)) / l.b))
      fuel first cr

/-- The threshold `1e-6` below which an arc is drawn as a line: the exact value of the
`double` literal, `4722366482869645 / 2 ^ 72`, which is a little less than `1 / 1000000`. -/
def ARC_EPSILON : ℚ := 4722366482869645 / 4722366482869645213696

/-- The function `cairo_arc (cr, a)` for an arc. -/
def cairo_arc (N : Numerics) (cr : cairo_t) (a : Arc) : cairo_t :=
  if |a.d| < ARC_EPSILON then
    cairo_line_to (cairo_line_to cr a.p0) a.p1
  else
    let c := N.circle a
    let a0 := N.angle (a.p0 - c.c)
    let a1 := N.angle (a.p1 - c.c)
    if a.d < 0 then Cairo.cairo_arc N cr c.c.x c.c.y c.r a0 a1
    else Cairo.cairo_arc_negative N cr c.c.x c.c.y c.r a0 a1

/-- The function `cairo_demo_point`. -/
def cairo_demo_point (cr : cairo_t) (p : Point) : cairo_t :=
  let cr := cairo_save cr
  let cr := cairo_set_line_cap_round cr
  let cr := cairo_move_to cr p
  let cr := cairo_rel_line_to cr 0 0
  let cr := cairo_set_line_width cr (cairo_get_line_width cr * 3)
  let cr := cairo_stroke cr
  cairo_restore cr

/-- The function `cairo_demo_arc`. -/
def cairo_demo_arc (N : Numerics) (cr : cairo_t) (a : Arc) : cairo_t :=
  if |a.d| < ARC_EPSILON then
    let cr := cairo_move_to cr a.p0
    let cr := cairo_line_to cr a.p1
    let cr := cairo_stroke cr
    let cr := cairo_set_line_width cr (cairo_get_line_width cr / 2)
    let cr := cairo_demo_point cr a.p0
    let cr := cairo_demo_point cr a.p1
    cairo_set_line_width cr (cairo_get_line_width cr * 2)
  else
    let c := N.circle a
    let a0 := N.angle (a.p0 - c.c)
    let a1 := N.angle (a.p1 - c.c)
    let cr := cairo_save cr
    let cr := cairo_set_line_width cr (cairo_get_line_width cr / 3)
    let cr := cairo_demo_point cr a.p0
    let cr := cairo_demo_point cr a.p1
    let cr := cairo_set_line_width cr (cairo_get_line_width cr * 9)
    let cr :=
      if a.d < 0 then Cairo.cairo_arc N cr c.c.x c.c.y c.r a0 a1
      else Cairo.cairo_arc_negative N cr c.c.x c.c.y c.r a0 a1
    cairo_stroke cr

/-- The class `CairoOutlineSink`: it holds the cairo context it draws into. -/
structure CairoOutlineSink where
  cr : cairo_t
deriving DecidableEq, Repr

/-- The method `CairoOutlineSink::move_to`. -/
def CairoOutlineSink.move_to (sink : CairoOutlineSink) (p : Point) :
    Bool × CairoOutlineSink :=
  (true, { cr := cairo_move_to (cairo_close_path sink.cr) p })

/-- The method `CairoOutlineSink::line_to`. -/
def CairoOutlineSink.line_to (sink : CairoOutlineSink) (p1 : Point) :
    Bool × CairoOutlineSink :=
  (true, { cr := cairo_line_to sink.cr p1 })

/-- The method `CairoOutlineSink::cubic_to`. -/
def CairoOutlineSink.cubic_to (sink : CairoOutlineSink) (p1 p2 p3 : Point) :
    Bool × CairoOutlineSink :=
  (true, { cr := cairo_curve_to sink.cr p1.x p1.y p2.x p2.y p3.x p3.y })

/-- The method `CairoOutlineSink::conic_to`. -/
def CairoOutlineSink.conic_to (sink : CairoOutlineSink) (p1 p2 : Point) :
    Bool × CairoOutlineSink :=
  let xy := cairo_get_current_point sink.cr
  let p0 : Point := { x := xy.1, y := xy.2 }
  sink.cubic_to (p0 + ((2 / 3 : ℚ) * (p1 - p0))) (p2 + ((2 / 3 : ℚ) * (p1 - p2))) p2

/-- The method `CairoOutlineSink::arc`. -/
def CairoOutlineSink.arc (N : Numerics) (sink : CairoOutlineSink) (a : Arc) :
    Bool × CairoOutlineSink :=
  (true, { cr := cairo_arc N sink.cr a })

end CairoHelper

/-! ## A synthetic face: the unit square -/

/-- All events of a lifecycle trace, in order. -/
def lifecycle_events : List ref_step → List Event
  | [] => []
  | s :: rest => s.events ++ lifecycle_events rest

/-- The outline of a square of side 1000 design units. -/
def square_outline : FT_Outline :=
  { points := [(0, 0), (1000, 0), (1000, 1000), (0, 1000)]
    tags := [1, 1, 1, 1]
    contours := [3] }

/-- A face with `units_per_EM = 1000`. -/
def square_face : FT_Face := { units_per_EM := 1000, id := 0 }

/-- An environment for `square_face`: glyph 0 is the square with an advance of 600 design
units, glyph 1 is a bitmap glyph, every other index fails to load; the encoder reports the
bounding box of the square in design units and fails when the endpoints do not fit the
buffer; the atlas is a cursor that hands out consecutive offsets. -/
def square_env : Env Nat :=
  { TOLERANCE := 1 / 2048
    MIN_FONT_SIZE := 10
    FT_Load_Glyph := fun _ glyph_index =>
      if glyph_index = 0 then
        some { format := FT_Glyph_Format.outline, outline := square_outline, horiAdvance := 600 }
      else if glyph_index = 1 then
        some { format := FT_Glyph_Format.bitmap, outline := square_outline, horiAdvance := 600 }
      else none
    outline_decompose := fun outline _ =>
      some (outline.points.map (fun p => { x := (p.1 : ℚ), y := (p.2 : ℚ), d := 0 }))
    glyphy_arc_list_encode_rgba := fun endpoints buffer_len _ _ =>
      if endpoints.length ≤ buffer_len then
        some { buffer := endpoints.map (fun _ => { r := 0, g := 0, b := 0, a := 0 })
               avg_fetch_achieved := 1
               output_len := endpoints.length
               glyph_layout := 257
               extents := { min_x := 0, min_y := 0, max_x := 1000, max_y := 1000 } }
      else none
    demo_atlas_alloc := fun atlas _ output_len => (atlas + output_len, atlas, 0) }

/-- The endpoints that `square_env` decomposes the square into. -/
def square_endpoints : List glyphy_arc_endpoint_t :=
  [{ x := 0, y := 0, d := 0 }, { x := 1000, y := 0, d := 0 },
   { x := 1000, y := 1000, d := 0 }, { x := 0, y := 1000, d := 0 }]

/-- The encoding that `square_env` reports for the square. -/
def square_encoding : arc_list_encoding :=
  { buffer := [{ r := 0, g := 0, b := 0, a := 0 }, { r := 0, g := 0, b := 0, a := 0 },
               { r := 0, g := 0, b := 0, a := 0 }, { r := 0, g := 0, b := 0, a := 0 }]
    avg_fetch_achieved := 1
    output_len := 4
    glyph_layout := 257
    extents := { min_x := 0, min_y := 0, max_x := 1000, max_y := 1000 } }

/-- A glyph record with every field zero, as a caller may pass it in. -/
def blank_info : glyph_info_t :=
  { extents := { min_x := 0, min_y := 0, max_x := 0, max_y := 0 }
    advance := 0
    glyph_layout := 0
    atlas_x := 0
    atlas_y := 0 }

/-- The handle `demo_font_create (square_face, atlas)` for the atlas cursor at 0. -/
def square_font : demo_font_t Nat := (demo_font_create square_face 0).1

/-- A handle on `square_face` whose cache holds a record for glyph 5. -/
def cached_font : demo_font_t Nat :=
  { refcount := 1, face := square_face, glyph_cache := [(5, blank_info)], atlas := 0 }

/-- A handle whose refcount is the largest `unsigned int`. -/
def saturated_font : demo_font_t Nat :=
  { refcount := 4294967295, face := square_face, glyph_cache := [], atlas := 0 }

/-! ## Sample inputs for the cairo helpers -/

namespace CairoHelper

open Geometry Cairo

/-- The calls of one `cairo_demo_point (cr, p)` when the line width on entry is `w`: the
marker of an endpoint. -/
def demo_point_cmds (w : ℚ) (p : Point) : List Cmd :=
  [Cmd.save, Cmd.set_line_cap_round, Cmd.move_to p.x p.y, Cmd.rel_line_to 0 0,
   Cmd.set_line_width (w * 3), Cmd.stroke, Cmd.restore]

/-- The circular-arc call for an arc `a`: centre and radius of `a.circle ()`, the polar
angles of the two endpoints seen from the centre, `cairo_arc` for `a.d < 0` and
`cairo_arc_negative` otherwise. -/
def arc_cmd (N : Numerics) (a : Arc) : Cmd :=
  if a.d < 0 then
    Cmd.arc (N.circle a).c.x (N.circle a).c.y (N.circle a).r
      (N.angle (a.p0 - (N.circle a).c)) (N.angle (a.p1 - (N.circle a).c))
  else
    Cmd.arc_negative (N.circle a).c.x (N.circle a).c.y (N.circle a).r
      (N.angle (a.p0 - (N.circle a).c)) (N.angle (a.p1 - (N.circle a).c))

/-- Rational stand-ins for the numeric functions: the circle on the chord as diameter, and
constant trigonometry. -/
def sample_numerics : Numerics :=
  { circle := fun a =>
      { c := { x := (a.p0.x + a.p1.x) / 2, y := (a.p0.y + a.p1.y) / 2 }
        r := (a.p1.x - a.p0.x) / 2 }
    angle := fun v => if 0 ≤ v.dx then 0 else 3
    cos := fun _ => 1
    sin := fun _ => 0 }

/-- A fresh context: no path, line width 2. -/
def fresh_cr : cairo_t :=
  { cmds := [], current := none, start := none, line_width := 2, saved := [] }

/-- A context whose current point is `(5, 5)`. -/
def moved_cr : cairo_t :=
  { cmds := [Cmd.move_to 5 5], current := some ⟨5, 5⟩, start := some ⟨5, 5⟩,
    line_width := 2, saved := [] }

/-- A half circle over the chord from `(-1, 0)` to `(1, 0)`. -/
def half_arc : Arc := { p0 := ⟨-1, 0⟩, p1 := ⟨1, 0⟩, d := 1 }

/-- The same chord with the opposite curvature. -/
def half_arc_neg : Arc := { p0 := ⟨-1, 0⟩, p1 := ⟨1, 0⟩, d := -1 }

/-- An arc with curvature 0 from `(0, 0)` to `(1, 0)`. -/
def flat_arc : Arc := { p0 := ⟨0, 0⟩, p1 := ⟨1, 0⟩, d := 0 }

/-- An arc from `(0, 0)` to `(1, 0)` whose curvature is the `double` `1e-6` itself. -/
def threshold_arc : Arc :=
  { p0 := ⟨0, 0⟩, p1 := ⟨1, 0⟩, d := 4722366482869645 / 4722366482869645213696 }

/-- The line `y = 3`. -/
def level_line : Line := { a := 0, b := 1, c := 3 }

end CairoHelper

/-! ## Properties of the glyph cache and of lookup -/

section FontManager

variable {Atlas : Type}

theorem find_assign_other (c : glyph_cache_t) (k j : Nat) (v : glyph_info_t) (hkj : k ≠ j) :
    (c.assign k v).find j = c.find j := by
  induction c with
  | nil => simp [glyph_cache_t.assign, glyph_cache_t.find, hkj]
  | cons hd tl ih =>
    obtain ⟨k0, v0⟩ := hd
    by_cases h : k0 = k
    · subst h
      simp [glyph_cache_t.assign, glyph_cache_t.find, hkj]
    · by_cases h2 : k0 = j
      · subst h2
        simp [glyph_cache_t.assign, glyph_cache_t.find, h]
      · simp [glyph_cache_t.assign, glyph_cache_t.find, h, h2, ih]

theorem upload_cases (env : Env Atlas) (f : demo_font_t Atlas) (i : Nat) (info : glyph_info_t) :
    (∃ msg, encode_ft_glyph env f.face i env.TOLERANCE 4096 = Except.error msg ∧
      _demo_font_upload_glyph env f i info = ([Event.encode_ft_glyph i], Except.error msg)) ∨
    (∃ a r, _demo_font_upload_glyph env f i info =
      ([Event.encode_ft_glyph i, Event.demo_atlas_alloc i], Except.ok (a, r))) := by
  unfold _demo_font_upload_glyph
  cases h : encode_ft_glyph env f.face i env.TOLERANCE 4096 with
  | error msg => exact Or.inl ⟨msg, rfl, rfl⟩
  | ok enc => exact Or.inr ⟨_, _, rfl⟩

theorem lookup_hit (env : Env Atlas) (f : demo_font_t Atlas) (i : Nat) (info r : glyph_info_t)
    (h : f.glyph_cache.find i = some r) :
    demo_font_lookup_glyph env (some f) i info =
      { font := some f, events := [], result := Except.ok r } := by
  simp [demo_font_lookup_glyph, h]

theorem lookup_miss (env : Env Atlas) (f : demo_font_t Atlas) (i : Nat) (info : glyph_info_t)
    (h : f.glyph_cache.find i = none) :
    (∃ msg, encode_ft_glyph env f.face i env.TOLERANCE 4096 = Except.error msg ∧
      demo_font_lookup_glyph env (some f) i info =
        { font := some f, events := [Event.encode_ft_glyph i],
          result := Except.error (Abort.die msg) }) ∨
    (∃ a r, demo_font_lookup_glyph env (some f) i info =
        { font := some { f with atlas := a, glyph_cache := f.glyph_cache.assign i r },
          events := [Event.encode_ft_glyph i, Event.demo_atlas_alloc i],
          result := Except.ok r }) := by
  rcases upload_cases env f i info with ⟨msg, he, hu⟩ | ⟨a, r, hu⟩
  · exact Or.inl ⟨msg, he, by simp [demo_font_lookup_glyph, h, hu]⟩
  · exact Or.inr ⟨a, r, by simp [demo_font_lookup_glyph, h, hu]⟩

/-- A lookup leaves every stored record where it is. -/
theorem lookup_keeps (env : Env Atlas) (f : demo_font_t Atlas) (a b : Nat)
    (info r : glyph_info_t) (h : f.glyph_cache.find a = some r) :
    ∃ g, (demo_font_lookup_glyph env (some f) b info).font = some g ∧
      g.glyph_cache.find a = some r := by
  cases hb : f.glyph_cache.find b with
  | some rb =>
    rw [lookup_hit env f b info rb hb]
    exact ⟨f, rfl, h⟩
  | none =>
    have hne : b ≠ a := by
      rintro rfl
      rw [h] at hb
      cases hb
    rcases lookup_miss env f b info hb with ⟨msg, _, hl⟩ | ⟨at2, r2, hl⟩
    · rw [hl]
      exact ⟨f, rfl, h⟩
    · rw [hl]
      exact ⟨_, rfl, by simpa [find_assign_other _ _ _ _ hne] using h⟩

/-- In a sequence of lookups on a handle that has a record for `i`, no call is made to the
encoder or to the atlas for `i`, and every lookup of `i` returns that record. -/
theorem sequence_cached (env : Env Atlas) (i : Nat) (r : glyph_info_t)
    (reqs : List (Nat × glyph_info_t)) :
    ∀ f : demo_font_t Atlas, f.glyph_cache.find i = some r →
      (lookup_sequence env (some f) reqs).events.count (Event.encode_ft_glyph i) = 0 ∧
      (lookup_sequence env (some f) reqs).events.count (Event.demo_atlas_alloc i) = 0 ∧
      (∀ p ∈ (lookup_sequence env (some f) reqs).returned, p.1 = i → p.2 = r) ∧
      (∀ g, (lookup_sequence env (some f) reqs).font = some g →
        g.glyph_cache.find i = some r) := by
  induction reqs with
  | nil =>
    intro f h
    simp [lookup_sequence, h]
  | cons hd tl ih =>
    intro f h
    obtain ⟨j, info⟩ := hd
    cases hj : f.glyph_cache.find j with
    | some rj =>
      have hl := lookup_hit env f j info rj hj
      obtain ⟨h1, h2, h3, h4⟩ := ih f h
      simp only [lookup_sequence, hl]
      refine ⟨by simpa using h1, by simpa using h2, ?_, h4⟩
      intro p hp hpi
      rcases List.mem_cons.mp hp with rfl | hp
      · simp only at hpi
        subst hpi
        rw [h] at hj
        exact (Option.some.inj hj).symm
      · exact h3 p hp hpi
    | none =>
      have hne : j ≠ i := by
        rintro rfl
        rw [h] at hj
        cases hj
      rcases lookup_miss env f j info hj with ⟨msg, _, hl⟩ | ⟨at2, r2, hl⟩
      · simp only [lookup_sequence, hl]
        refine ⟨?_, ?_, ?_, ?_⟩
        · simp [List.count_cons, hne]
        · simp [List.count_cons]
        · intro p hp
          cases hp
        · intro g hg
          cases hg
          exact h
      · have hf : ({ f with atlas := at2, glyph_cache := f.glyph_cache.assign j r2 } :
            demo_font_t Atlas).glyph_cache.find i = some r := by
          simpa [find_assign_other _ _ _ _ hne] using h
        obtain ⟨h1, h2, h3, h4⟩ := ih _ hf
        simp only [lookup_sequence, hl]
        refine ⟨?_, ?_, ?_, h4⟩
        · simp [List.count_cons, hne, h1]
        · simp [List.count_cons, hne, h2]
        · intro p hp hpi
          rcases List.mem_cons.mp hp with rfl | hp
          · exact absurd hpi hne
          · exact h3 p hp hpi

theorem lookup_font_some (env : Env Atlas) (f : demo_font_t Atlas) (i : Nat)
    (info : glyph_info_t) : ∃ g, (demo_font_lookup_glyph env (some f) i info).font = some g := by
  cases hi : f.glyph_cache.find i with
  | some r => exact ⟨f, by rw [lookup_hit env f i info r hi]⟩
  | none =>
    rcases lookup_miss env f i info hi with ⟨msg, _, hl⟩ | ⟨a, r, hl⟩
    · exact ⟨f, by rw [hl]⟩
    · exact ⟨_, by rw [hl]⟩

theorem sequence_font_some (env : Env Atlas) (reqs : List (Nat × glyph_info_t)) :
    ∀ f : demo_font_t Atlas, ∃ g, (lookup_sequence env (some f) reqs).font = some g := by
  induction reqs with
  | nil => intro f; exact ⟨f, rfl⟩
  | cons hd tl ih =>
    intro f
    obtain ⟨j, info⟩ := hd
    obtain ⟨g, hg⟩ := lookup_font_some env f j info
    cases hr : (demo_font_lookup_glyph env (some f) j info).result with
    | error e => exact ⟨g, by simp [lookup_sequence, hr, hg]⟩
    | ok r =>
      obtain ⟨g2, hg2⟩ := ih g
      exact ⟨g2, by simp [lookup_sequence, hr, hg, hg2]⟩

/-- The square face end to end: two lookups of glyph 0 call the encoder and the atlas once,
and both return the record with advance `3/5` placed at atlas offset `(0, 0)`. -/
theorem square_lookup_twice :
    (lookup_sequence square_env (some square_font) [(0, blank_info), (0, blank_info)]).events =
      [Event.encode_ft_glyph 0, Event.demo_atlas_alloc 0] ∧
    (lookup_sequence square_env (some square_font)
      [(0, blank_info), (0, blank_info)]).returned.map (fun p => (p.1, p.2.advance, p.2.atlas_x)) =
      [(0, 3 / 5, 0), (0, 3 / 5, 0)] := by
  have henc : encode_ft_glyph square_env square_face 0 square_env.TOLERANCE 4096 =
      Except.ok
        { buffer := square_encoding.buffer
          output_len := 4
          glyph_layout := 257
          extents := { min_x := 0, min_y := 0, max_x := 1 / 1000, max_y := 1 / 1000 }
          advance := 3 / 5 } := by
    simp [encode_ft_glyph, square_env, square_face, square_outline, square_encoding,
      glyphy_extents_scale]
    norm_num
  simp [lookup_sequence, demo_font_lookup_glyph, _demo_font_upload_glyph, square_font,
    demo_font_create, glyph_cache_t.find, glyph_cache_t.assign, henc]
  simp [square_env]

/-- C8: once a record is stored for glyph index `a`, a lookup of any index `b`, and any
sequence of later lookups, leaves that record stored for `a` and unchanged. -/
theorem glyph_record_write_once (env : Env Atlas) (f : demo_font_t Atlas) (a b : Nat)
    (info r : glyph_info_t) (reqs : List (Nat × glyph_info_t))
    (h : f.glyph_cache.find a = some r) :
    (∃ g, (demo_font_lookup_glyph env (some f) b info).font = some g ∧
      g.glyph_cache.find a = some r) ∧
    (∃ g, (lookup_sequence env (some f) reqs).font = some g ∧
      g.glyph_cache.find a = some r) := by
  refine ⟨lookup_keeps env f a b info r h, ?_⟩
  obtain ⟨g, hg⟩ := sequence_font_some env reqs f
  exact ⟨g, hg, (sequence_cached env a r reqs f h).2.2.2 g hg⟩

/-- An instance of C8: a cache holding glyph 5, a lookup of glyph 0 and a sequence of three
lookups. -/
theorem glyph_record_write_once_witness :
    cached_font.glyph_cache.find 5 = some blank_info ∧
    ((∃ g, (demo_font_lookup_glyph square_env (some cached_font) 0 blank_info).font = some g ∧
      g.glyph_cache.find 5 = some blank_info) ∧
    (∃ g, (lookup_sequence square_env (some cached_font)
        [(0, blank_info), (5, blank_info), (7, blank_info)]).font = some g ∧
      g.glyph_cache.find 5 = some blank_info)) :=
  ⟨rfl, glyph_record_write_once square_env cached_font 5 0 blank_info blank_info
    [(0, blank_info), (5, blank_info), (7, blank_info)] rfl⟩

/-- The four ways `encode_ft_glyph` dies: the glyph does not load, it is not an outline,
the outline does not decompose, or the arcs do not fit the buffer. -/
theorem encode_ft_glyph_dies (env : Env Atlas) (face : FT_Face) (i : Nat) (tol : ℚ)
    (len : Nat) :
    (env.FT_Load_Glyph face i = none →
      encode_ft_glyph env face i tol len = Except.error "Failed loading FreeType glyph") ∧
    (∀ glyph, env.FT_Load_Glyph face i = some glyph →
      glyph.format ≠ FT_Glyph_Format.outline →
      encode_ft_glyph env face i tol len =
        Except.error "FreeType loaded glyph format is not outline") ∧
    (∀ glyph, env.FT_Load_Glyph face i = some glyph →
      glyph.format = FT_Glyph_Format.outline →
      env.outline_decompose glyph.outline ((face.units_per_EM : ℚ) * tol) = none →
      encode_ft_glyph env face i tol len =
        Except.error "Failed converting glyph outline to arcs") ∧
    (∀ glyph endpoints, env.FT_Load_Glyph face i = some glyph →
      glyph.format = FT_Glyph_Format.outline →
      env.outline_decompose glyph.outline ((face.units_per_EM : ℚ) * tol) = some endpoints →
      env.glyphy_arc_list_encode_rgba endpoints len
        ((face.units_per_EM : ℚ) / env.MIN_FONT_SIZE) 4 = none →
      encode_ft_glyph env face i tol len = Except.error "Failed encoding arcs") := by
  refine ⟨?_, ?_, ?_, ?_⟩
  · intro h
    simp [encode_ft_glyph, h]
  · intro glyph h hf
    simp [encode_ft_glyph, h, hf]
  · intro glyph h hf hd
    simp [encode_ft_glyph, h, hf, hd]
  · intro glyph endpoints h hf hd he
    simp [encode_ft_glyph, h, hf, hd, he]

/-- What `encode_ft_glyph` stores as extents when every step succeeds: each coordinate of
the encoded box divided by `units_per_EM` and then multiplied by `1 / units_per_EM`. -/
theorem encode_ft_glyph_extents (env : Env Atlas) (face : FT_Face) (i : Nat) (tol : ℚ)
    (len : Nat) (glyph : FT_GlyphSlot) (endpoints : List glyphy_arc_endpoint_t)
    (enc : arc_list_encoding)
    (h : env.FT_Load_Glyph face i = some glyph)
    (hf : glyph.format = FT_Glyph_Format.outline)
    (hd : env.outline_decompose glyph.outline ((face.units_per_EM : ℚ) * tol) = some endpoints)
    (he : env.glyphy_arc_list_encode_rgba endpoints len
        ((face.units_per_EM : ℚ) / env.MIN_FONT_SIZE) 4 = some enc) :
    ∃ g, encode_ft_glyph env face i tol len = Except.ok g ∧
      g.extents =
        { min_x := enc.extents.min_x / (face.units_per_EM : ℚ) * (1 / (face.units_per_EM : ℚ))
          min_y := enc.extents.min_y / (face.units_per_EM : ℚ) * (1 / (face.units_per_EM : ℚ))
          max_x := enc.extents.max_x / (face.units_per_EM : ℚ) * (1 / (face.units_per_EM : ℚ))
          max_y := enc.extents.max_y / (face.units_per_EM : ℚ) * (1 / (face.units_per_EM : ℚ)) } ∧
      g.advance = (glyph.horiAdvance : ℚ) / (face.units_per_EM : ℚ) := by
  have hok : encode_ft_glyph env face i tol len = Except.ok
      { buffer := enc.buffer
        output_len := enc.output_len
        glyph_layout := enc.glyph_layout
        extents := glyphy_extents_scale
          { min_x := enc.extents.min_x / (face.units_per_EM : ℚ)
            min_y := enc.extents.min_y / (face.units_per_EM : ℚ)
            max_x := enc.extents.max_x / (face.units_per_EM : ℚ)
            max_y := enc.extents.max_y / (face.units_per_EM : ℚ) }
          (1 / (face.units_per_EM : ℚ)) (1 / (face.units_per_EM : ℚ))
        advance := (glyph.horiAdvance : ℚ) / (face.units_per_EM : ℚ) } := by
    simp [encode_ft_glyph, h, hf, hd, he]
  exact ⟨_, hok, rfl, rfl⟩

/-- C2: for the face with `units_per_EM = 1000` and encoded extents `(0, 0, 1000, 1000)`,
`encode_ft_glyph` stores the extents `(0, 0, 1/1000, 1/1000)` and not `(0, 0, 1, 1)`: the
box is divided by `units_per_EM` and then scaled by `1 / units_per_EM` once more, while
the advance `600` is divided once and becomes `3/5`. -/
theorem encode_ft_glyph_normalises_twice :
    ∃ g, encode_ft_glyph square_env square_face 0 square_env.TOLERANCE 4096 = Except.ok g ∧
      g.extents = { min_x := 0, min_y := 0, max_x := 1 / 1000, max_y := 1 / 1000 } ∧
      g.extents ≠ { min_x := 0, min_y := 0, max_x := 1, max_y := 1 } ∧
      g.advance = 3 / 5 := by
  obtain ⟨g, hg, hext, hadv⟩ := encode_ft_glyph_extents square_env square_face 0
    square_env.TOLERANCE 4096
    { format := FT_Glyph_Format.outline, outline := square_outline, horiAdvance := 600 }
    square_endpoints square_encoding
    rfl rfl (by simp [square_env, square_outline, square_endpoints])
    (by simp [square_env, square_endpoints, square_encoding])
  refine ⟨g, hg, ?_, ?_, ?_⟩
  · rw [hext]
    norm_num [square_face, square_encoding]
  · rw [hext]
    norm_num [square_face, square_encoding]
  · rw [hadv]
    norm_num [square_face]

/-- C5, as stated, fails: glyph 7 does not load, the lookup dies instead of returning to
its caller, and of two requested lookups of glyph 7 only the first is made, so the encoder
is called once and not twice. -/
theorem encode_failure_is_not_returned :
    (demo_font_lookup_glyph square_env (some square_font) 7 blank_info).result =
      Except.error (Abort.die "Failed loading FreeType glyph") ∧
    (lookup_sequence square_env (some square_font) [(7, blank_info), (7, blank_info)]).events =
      [Event.encode_ft_glyph 7] ∧
    (lookup_sequence square_env (some square_font) [(7, blank_info), (7, blank_info)]).returned =
      [] ∧
    (lookup_sequence square_env (some square_font)
      [(7, blank_info), (7, blank_info)]).events.count (Event.encode_ft_glyph 7) ≠ 2 := by
  refine ⟨rfl, rfl, rfl, ?_⟩
  decide

/-- C5, amended: when the glyph index is not cached and `encode_ft_glyph` fails, the lookup
dies with the encoder's message after that one encoder call; nothing has been stored in the
cache, the atlas has not been called, the object behind the handle is as it was, and no
later lookup of the sequence is made. -/
theorem encode_failure_aborts_lookup (env : Env Atlas) (f : demo_font_t Atlas) (i : Nat)
    (info : glyph_info_t) (msg : String) (rest : List (Nat × glyph_info_t))
    (hmiss : f.glyph_cache.find i = none)
    (hfail : encode_ft_glyph env f.face i env.TOLERANCE 4096 = Except.error msg) :
    demo_font_lookup_glyph env (some f) i info =
      { font := some f, events := [Event.encode_ft_glyph i],
        result := Except.error (Abort.die msg) } ∧
    lookup_sequence env (some f) ((i, info) :: rest) =
      { font := some f, events := [Event.encode_ft_glyph i], returned := [],
        aborted := some (Abort.die msg) } := by
  have hl : demo_font_lookup_glyph env (some f) i info =
      { font := some f, events := [Event.encode_ft_glyph i],
        result := Except.error (Abort.die msg) } := by
    simp [demo_font_lookup_glyph, hmiss, _demo_font_upload_glyph, hfail]
  exact ⟨hl, by simp [lookup_sequence, hl]⟩

/-- An instance of the amended C5: the bitmap glyph 1 of the square face. -/
theorem encode_failure_aborts_lookup_witness :
    square_font.glyph_cache.find 1 = none ∧
    encode_ft_glyph square_env square_font.face 1 square_env.TOLERANCE 4096 =
      Except.error "FreeType loaded glyph format is not outline" ∧
    (demo_font_lookup_glyph square_env (some square_font) 1 blank_info =
      { font := some square_font, events := [Event.encode_ft_glyph 1],
        result := Except.error (Abort.die "FreeType loaded glyph format is not outline") } ∧
    lookup_sequence square_env (some square_font) ((1, blank_info) :: [(0, blank_info)]) =
      { font := some square_font, events := [Event.encode_ft_glyph 1], returned := [],
        aborted := some (Abort.die "FreeType loaded glyph format is not outline") }) :=
  ⟨rfl, rfl, encode_failure_aborts_lookup square_env square_font 1 blank_info
    "FreeType loaded glyph format is not outline" [(0, blank_info)] rfl rfl⟩

/-- C4, as stated, fails: `demo_font_get_face`, `demo_font_get_atlas` and
`demo_font_lookup_glyph` dereference a null handle. -/
theorem null_handle_is_dereferenced :
    demo_font_get_face (none : Option (demo_font_t Nat)) =
      Except.error Abort.null_dereference ∧
    demo_font_get_atlas (none : Option (demo_font_t Nat)) =
      Except.error Abort.null_dereference ∧
    (demo_font_lookup_glyph square_env none 0 blank_info).result =
      Except.error Abort.null_dereference :=
  ⟨rfl, rfl, rfl⟩

/-- C4, amended: with a null handle `demo_font_reference` returns null and
`demo_font_destroy` returns at once, neither touching a field nor calling a collaborator;
`demo_font_get_face`, `demo_font_get_atlas` and `demo_font_lookup_glyph` have no null
check and dereference the handle before doing anything else. -/
theorem null_handle_behaviour (env : Env Atlas) (i : Nat) (info : glyph_info_t) :
    demo_font_reference (none : Option (demo_font_t Atlas)) = none ∧
    demo_font_destroy (none : Option (demo_font_t Atlas)) = (none, []) ∧
    demo_font_get_face (none : Option (demo_font_t Atlas)) =
      Except.error Abort.null_dereference ∧
    demo_font_get_atlas (none : Option (demo_font_t Atlas)) =
      Except.error Abort.null_dereference ∧
    demo_font_lookup_glyph env none i info =
      { font := none, events := [], result := Except.error Abort.null_dereference } :=
  ⟨rfl, rfl, rfl, rfl, rfl⟩

theorem UINT_MOD_pos : 0 < UINT_MOD := by
  norm_num [UINT_MOD]

theorem reference_live (f : demo_font_t Atlas) :
    demo_font_reference (some f) = some { f with refcount := (f.refcount + 1) % UINT_MOD } :=
  rfl

theorem destroy_release (f : demo_font_t Atlas)
    (hz : (UINT_MOD - 1 + f.refcount) % UINT_MOD = 0) :
    demo_font_destroy (some f) = (none, release_events) := by
  simp [demo_font_destroy, hz]

theorem destroy_keep (f : demo_font_t Atlas)
    (hz : (UINT_MOD - 1 + f.refcount) % UINT_MOD ≠ 0) :
    demo_font_destroy (some f) =
      (some { f with refcount := (UINT_MOD - 1 + f.refcount) % UINT_MOD }, []) := by
  simp [demo_font_destroy, hz]

/-- After `n` calls of `demo_font_reference` the refcount is the old one plus `n`, reduced
modulo `2 ^ 32`. -/
theorem reference_iterate (n : Nat) :
    ∀ f : demo_font_t Atlas, f.refcount < UINT_MOD →
      Nat.iterate demo_font_reference n (some f) =
        some { f with refcount := (f.refcount + n) % UINT_MOD } := by
  induction n with
  | zero =>
    intro f hf
    simp [Nat.mod_eq_of_lt hf]
  | succ m ih =>
    intro f hf
    rw [Function.iterate_succ_apply, reference_live, ih _ (Nat.mod_lt _ UINT_MOD_pos)]
    simp only [UINT_MOD]
    congr 2
    omega

/-- The sequence property of the lifecycle, from any live handle whose refcount is a valid
`unsigned int`. -/
theorem lifecycle_spec (ops : List RefOp) :
    ∀ f : demo_font_t Atlas, f.refcount < UINT_MOD →
      (∀ s ∈ lifecycle f ops,
        (s.events = release_events ∧ s.op = RefOp.destroy ∧ s.before = 1) ∨
        (s.events = [] ∧ ¬ (s.op = RefOp.destroy ∧ s.before = 1))) ∧
      (lifecycle_events (lifecycle f ops)).count Event.demo_atlas_destroy ≤ 1 ∧
      (lifecycle_events (lifecycle f ops)).count Event.delete_glyph_cache ≤ 1 ∧
      (∀ pre s post, lifecycle f ops = pre ++ s :: post →
        s.events = release_events → post = []) := by
  induction ops with
  | nil =>
    intro f _
    simp [lifecycle, lifecycle_events]
  | cons op rest ih =>
    intro f hf
    have hne : release_events ≠ [] := by decide
    cases op with
    | reference =>
      obtain ⟨h1, h2, h3, h4⟩ := ih ({ f with refcount := (f.refcount + 1) % UINT_MOD })
        (Nat.mod_lt _ UINT_MOD_pos)
      simp only [lifecycle, reference_live]
      refine ⟨?_, ?_, ?_, ?_⟩
      · intro s hs
        rcases List.mem_cons.mp hs with rfl | hs
        · exact Or.inr ⟨rfl, by simp⟩
        · exact h1 s hs
      · simpa [lifecycle_events] using h2
      · simpa [lifecycle_events] using h3
      · intro pre s post heq hrel
        cases pre with
        | nil =>
          simp only [List.nil_append, List.cons.injEq] at heq
          obtain ⟨hs, _⟩ := heq
          rw [← hs] at hrel
          exact absurd hrel.symm hne
        | cons x pre2 =>
          simp only [List.cons_append, List.cons.injEq] at heq
          exact h4 pre2 s post heq.2 hrel
    | destroy =>
      by_cases hz : (UINT_MOD - 1 + f.refcount) % UINT_MOD = 0
      · have hone : f.refcount = 1 := by
          simp only [UINT_MOD] at hz hf
          omega
        simp only [lifecycle, destroy_release f hz]
        refine ⟨?_, ?_, ?_, ?_⟩
        · intro s hs
          rcases List.mem_cons.mp hs with rfl | hs
          · exact Or.inl ⟨rfl, rfl, hone⟩
          · cases hs
        · simp [lifecycle_events, release_events, List.count_cons]
        · simp [lifecycle_events, release_events, List.count_cons]
        · intro pre s post heq _
          cases pre with
          | nil =>
            simp only [List.nil_append, List.cons.injEq] at heq
            exact heq.2.symm
          | cons x pre2 =>
            simp only [List.cons_append, List.cons.injEq] at heq
            have := heq.2
            simp at this
      · have hone : f.refcount ≠ 1 := by
          intro h1
          apply hz
          rw [h1]
          norm_num [UINT_MOD]
        obtain ⟨h1, h2, h3, h4⟩ := ih
          ({ f with refcount := (UINT_MOD - 1 + f.refcount) % UINT_MOD })
          (Nat.mod_lt _ UINT_MOD_pos)
        simp only [lifecycle, destroy_keep f hz]
        refine ⟨?_, ?_, ?_, ?_⟩
        · intro s hs
          rcases List.mem_cons.mp hs with rfl | hs
          · exact Or.inr ⟨rfl, by simp [hone]⟩
          · exact h1 s hs
        · simpa [lifecycle_events] using h2
        · simpa [lifecycle_events] using h3
        · intro pre s post heq hrel
          cases pre with
          | nil =>
            simp only [List.nil_append, List.cons.injEq] at heq
            obtain ⟨hs, _⟩ := heq
            rw [← hs] at hrel
            exact absurd hrel.symm hne
          | cons x pre2 =>
            simp only [List.cons_append, List.cons.injEq] at heq
            exact h4 pre2 s post heq.2 hrel

/-- C3, as stated, fails: 4294967294 calls of `demo_font_reference` on a created handle
bring the refcount to 4294967295, the next call sets it to 0 instead of increasing it by 1,
and `demo_font_destroy` on that live handle sets it back to 4294967295 instead of
decreasing it by 1. -/
theorem refcount_wraps_around :
    Nat.iterate demo_font_reference 4294967294 (some square_font) = some saturated_font ∧
    demo_font_reference (some saturated_font) = some { saturated_font with refcount := 0 } ∧
    demo_font_destroy (some { saturated_font with refcount := 0 }) =
      (some saturated_font, []) := by
  refine ⟨?_, ?_, ?_⟩
  · rw [reference_iterate 4294967294 square_font
      (by norm_num [square_font, demo_font_create, UINT_MOD])]
    norm_num [square_font, demo_font_create, saturated_font, UINT_MOD]
  · norm_num [demo_font_reference, saturated_font, UINT_MOD]
  · norm_num [demo_font_destroy, saturated_font, UINT_MOD]

/-- C3, amended: `demo_font_create` returns a handle with refcount 1 and an empty cache;
`demo_font_reference` on a live handle whose refcount is below `2 ^ 32 - 1` returns the
same object with the refcount increased by exactly 1; `demo_font_destroy` on a live handle
whose refcount is at least 2 decreases it by exactly 1 and releases nothing, and on
refcount 1 it releases the atlas reference, the cache and the object; and in every sequence
of reference and destroy calls on a created handle, a call releases exactly when it is the
destroy call that brings the refcount to 0, the atlas reference and the cache are each
released at most once, and no call is made after the releasing one. -/
theorem refcount_lifecycle :
    (∀ (face : FT_Face) (atlas : Atlas),
      (demo_font_create face atlas).1.refcount = 1 ∧
      (demo_font_create face atlas).1.glyph_cache = []) ∧
    (∀ f : demo_font_t Atlas, f.refcount + 1 < UINT_MOD →
      demo_font_reference (some f) = some { f with refcount := f.refcount + 1 }) ∧
    (∀ f : demo_font_t Atlas, 1 < f.refcount → f.refcount < UINT_MOD →
      demo_font_destroy (some f) = (some { f with refcount := f.refcount - 1 }, [])) ∧
    (∀ f : demo_font_t Atlas, f.refcount = 1 →
      demo_font_destroy (some f) = (none, release_events)) ∧
    (∀ (face : FT_Face) (atlas : Atlas) (ops : List RefOp),
      (∀ s ∈ lifecycle (demo_font_create face atlas).1 ops,
        (s.events = release_events ∧ s.op = RefOp.destroy ∧ s.before = 1) ∨
        (s.events = [] ∧ ¬ (s.op = RefOp.destroy ∧ s.before = 1))) ∧
      (lifecycle_events (lifecycle (demo_font_create face atlas).1 ops)).count
        Event.demo_atlas_destroy ≤ 1 ∧
      (lifecycle_events (lifecycle (demo_font_create face atlas).1 ops)).count
        Event.delete_glyph_cache ≤ 1 ∧
      (∀ pre s post, lifecycle (demo_font_create face atlas).1 ops = pre ++ s :: post →
        s.events = release_events → post = [])) := by
  refine ⟨fun _ _ => ⟨rfl, rfl⟩, ?_, ?_, ?_, ?_⟩
  · intro f hf
    rw [reference_live, Nat.mod_eq_of_lt hf]
  · intro f h1 hf
    have hm : (UINT_MOD - 1 + f.refcount) % UINT_MOD = f.refcount - 1 := by
      simp only [UINT_MOD] at hf ⊢
      omega
    have hz : (UINT_MOD - 1 + f.refcount) % UINT_MOD ≠ 0 := by
      rw [hm]
      omega
    rw [destroy_keep f hz, hm]
  · intro f h1
    apply destroy_release
    rw [h1]
    norm_num [UINT_MOD]
  · intro face atlas ops
    exact lifecycle_spec ops _ (by norm_num [demo_font_create, UINT_MOD])

/-- Instances of the amended C3: a reference on the created handle, a destroy at
refcount 1, and a sequence of four calls. -/
theorem refcount_lifecycle_witness :
    (square_font.refcount + 1 < UINT_MOD ∧
      demo_font_reference (some square_font) =
        some { square_font with refcount := square_font.refcount + 1 }) ∧
    (cached_font.refcount = 1 ∧
      demo_font_destroy (some cached_font) = (none, release_events)) ∧
    (lifecycle_events (lifecycle (demo_font_create square_face 0).1
      [RefOp.reference, RefOp.destroy, RefOp.destroy, RefOp.destroy])).count
        Event.demo_atlas_destroy ≤ 1 :=
  ⟨⟨by norm_num [square_font, demo_font_create, UINT_MOD],
      (@refcount_lifecycle Nat).2.1 square_font
        (by norm_num [square_font, demo_font_create, UINT_MOD])⟩,
    ⟨rfl, (@refcount_lifecycle Nat).2.2.2.1 cached_font rfl⟩,
    ((@refcount_lifecycle Nat).2.2.2.2 square_face 0
      [RefOp.reference, RefOp.destroy, RefOp.destroy, RefOp.destroy]).2.1⟩

end FontManager

/-! ## Properties of the cairo helpers -/

namespace CairoHelper

open Geometry Cairo

theorem emitted_append (cr : cairo_t) (cmds : List Cmd) (after : cairo_t)
    (h : after.cmds = cr.cmds ++ cmds) : emitted cr after = cmds := by
  simp [emitted, h]

theorem demo_point_spec (cr : cairo_t) (p : Point) :
    cairo_demo_point cr p =
      { cmds := cr.cmds ++ demo_point_cmds cr.line_width p
        current := none
        start := none
        line_width := cr.line_width
        saved := cr.saved } := by
  simp [cairo_demo_point, demo_point_cmds, cairo_save, cairo_set_line_cap_round,
    cairo_move_to, Cairo.cairo_move_to, cairo_rel_line_to, cairo_set_line_width,
    cairo_get_line_width, cairo_stroke, cairo_restore]

/-- The loop of `cairo_line` exits at its first test: the counter starts at
`2 ^ 32 - 10000`, which is not `≤ 10000`. -/
theorem cairo_line_loop_exits (body : Nat → cairo_t → cairo_t) (fuel : Nat) (cr : cairo_t) :
    cairo_line_loop body (fuel + 1) ((UINT_MOD - BIG) % UINT_MOD) cr = some cr := by
  simp [cairo_line_loop, UINT_MOD, BIG]

/-- For every line `cairo_line` returns after `cairo_new_sub_path` alone: the loop body,
the only place a point is added, never runs. -/
theorem cairo_line_adds_no_point (fuel : Nat) (cr : cairo_t) (l : Line) :
    cairo_line (fuel + 1) cr l = some (cairo_new_sub_path cr) := by
  unfold cairo_line
  by_cases ha : l.a = 0
  · simp only [ha, if_true]
    exact cairo_line_loop_exits _ fuel _
  · by_cases hb : l.b = 0
    · simp only [ha, hb, if_true, if_false]
      exact cairo_line_loop_exits _ fuel _
    · simp only [ha, hb, if_false]
      exact cairo_line_loop_exits _ fuel _

theorem point_add_vector (p : Point) (v : Vector) :
    p + v = ({ x := p.x + v.dx, y := p.y + v.dy } : Point) := rfl

theorem point_sub_point (p q : Point) :
    p - q = ({ dx := p.x - q.x, dy := p.y - q.y } : Vector) := rfl

theorem scalar_mul_vector (k : ℚ) (v : Vector) :
    k * v = ({ dx := k * v.dx, dy := k * v.dy } : Vector) := rfl

/-- The cubic Bézier curve on `p0`, `p0 + 2/3 (p1 - p0)`, `p2 + 2/3 (p1 - p2)`, `p2` is the
quadratic Bézier curve on `p0 p1 p2`. -/
theorem elevation_exact (p0 p1 p2 : Point) (t : ℚ) :
    cubic_point p0 (p0 + ((2 / 3 : ℚ) * (p1 - p0))) (p2 + ((2 / 3 : ℚ) * (p1 - p2))) p2 t =
      quadratic_point p0 p1 p2 t := by
  simp only [cubic_point, quadratic_point, point_add_vector, point_sub_point,
    scalar_mul_vector, Point.mk.injEq]
  constructor <;> ring

/-- C10: for the line `y = 3`, `cairo_line` returns having called `cairo_new_sub_path`
only: it appends no point where two are expected, because the `unsigned int` counter
starts at `2 ^ 32 - 10000` and fails the test `i <= 10000` at once. -/
theorem cairo_line_draws_nothing :
    cairo_line 2 fresh_cr level_line = some (cairo_new_sub_path fresh_cr) ∧
    (cairo_new_sub_path fresh_cr).cmds = [Cmd.new_sub_path] ∧
    (UINT_MOD - BIG) % UINT_MOD = 4294957296 ∧
    ¬ ((UINT_MOD - BIG) % UINT_MOD ≤ BIG) := by
  refine ⟨cairo_line_adds_no_point 1 fresh_cr level_line, rfl, ?_, ?_⟩
  · norm_num [UINT_MOD, BIG]
  · norm_num [UINT_MOD, BIG]

/-- C6: with current point `p0`, `conic_to (p1, p2)` makes exactly one `cairo_curve_to`
call, with control points `p0 + 2/3 (p1 - p0)` and `p2 + 2/3 (p1 - p2)` and end point `p2`,
and the cubic Bézier curve on these four points is the quadratic one on `p0 p1 p2` at every
parameter. -/
theorem conic_to_elevation (sink : CairoOutlineSink) (p0 p1 p2 : Point)
    (h : sink.cr.current = some p0) :
    (sink.conic_to p1 p2).1 = true ∧
    (sink.conic_to p1 p2).2.cr.cmds = sink.cr.cmds ++
      [Cmd.curve_to (p0.x + 2 / 3 * (p1.x - p0.x)) (p0.y + 2 / 3 * (p1.y - p0.y))
        (p2.x + 2 / 3 * (p1.x - p2.x)) (p2.y + 2 / 3 * (p1.y - p2.y)) p2.x p2.y] ∧
    (sink.conic_to p1 p2).2 =
      (sink.cubic_to (p0 + ((2 / 3 : ℚ) * (p1 - p0))) (p2 + ((2 / 3 : ℚ) * (p1 - p2))) p2).2 ∧
    ∀ t : ℚ,
      cubic_point p0 (p0 + ((2 / 3 : ℚ) * (p1 - p0))) (p2 + ((2 / 3 : ℚ) * (p1 - p2))) p2 t =
        quadratic_point p0 p1 p2 t := by
  have hp : ({ x := (cairo_get_current_point sink.cr).1,
               y := (cairo_get_current_point sink.cr).2 } : Point) = p0 := by
    simp [cairo_get_current_point, h]
  refine ⟨rfl, ?_, ?_, elevation_exact p0 p1 p2⟩
  · simp only [CairoOutlineSink.conic_to, hp]
    simp only [CairoOutlineSink.cubic_to, cairo_curve_to, point_add_vector, point_sub_point,
      scalar_mul_vector]
  · simp only [CairoOutlineSink.conic_to, hp]

/-- An instance of C6: current point `(5, 5)`, control point `(8, 11)`, end `(14, 5)`. -/
theorem conic_to_elevation_witness :
    moved_cr.current = some ⟨5, 5⟩ ∧
    ((CairoOutlineSink.mk moved_cr).conic_to ⟨8, 11⟩ ⟨14, 5⟩).2.cr.cmds =
      moved_cr.cmds ++ [Cmd.curve_to (5 + 2 / 3 * (8 - 5)) (5 + 2 / 3 * (11 - 5))
        (14 + 2 / 3 * (8 - 14)) (5 + 2 / 3 * (11 - 5)) 14 5] :=
  ⟨rfl, (conic_to_elevation (CairoOutlineSink.mk moved_cr) ⟨5, 5⟩ ⟨8, 11⟩ ⟨14, 5⟩ rfl).2.1⟩

/-- The threshold is the `double` nearest to `1 / 1000000`, and lies below it. -/
theorem ARC_EPSILON_bounds :
    0 < ARC_EPSILON ∧ ARC_EPSILON < 1 / 1000000 ∧
    ARC_EPSILON * 4722366482869645213696 = 4722366482869645 := by
  refine ⟨?_, ?_, ?_⟩ <;> norm_num [ARC_EPSILON]

theorem threshold_arc_round : ARC_EPSILON ≤ |threshold_arc.d| := by
  have h : ARC_EPSILON = threshold_arc.d := rfl
  rw [h]
  exact le_abs_self _

theorem arc_cmd_is_arc (N : Numerics) (a : Arc) : (arc_cmd N a).is_arc = true := by
  unfold arc_cmd
  split <;> rfl

theorem demo_point_cmds_lines (w : ℚ) (p : Point) :
    (demo_point_cmds w p).filter Cmd.is_line = [Cmd.rel_line_to 0 0] ∧
    (demo_point_cmds w p).filter Cmd.is_arc = [] := by
  simp [demo_point_cmds, Cmd.is_line, Cmd.is_arc]

/-- The calls of `cairo_arc` for an arc below the threshold. -/
theorem cairo_arc_flat (N : Numerics) (cr : cairo_t) (a : Arc) (h : |a.d| < ARC_EPSILON) :
    (cairo_arc N cr a).cmds =
      cr.cmds ++ [Cmd.line_to a.p0.x a.p0.y, Cmd.line_to a.p1.x a.p1.y] := by
  simp [cairo_arc, h, cairo_line_to, Cairo.cairo_line_to]

/-- The call of `cairo_arc` for an arc at or above the threshold. -/
theorem cairo_arc_round (N : Numerics) (cr : cairo_t) (a : Arc) (h : ARC_EPSILON ≤ |a.d|) :
    (cairo_arc N cr a).cmds = cr.cmds ++ [arc_cmd N a] := by
  have hn : ¬ |a.d| < ARC_EPSILON := not_lt.mpr h
  by_cases hd : a.d < 0
  · simp [cairo_arc, hn, hd, arc_cmd, Cairo.cairo_arc]
  · simp [cairo_arc, hn, hd, arc_cmd, Cairo.cairo_arc_negative]

/-- The calls of `cairo_demo_arc` for an arc below the threshold. -/
theorem cairo_demo_arc_flat (N : Numerics) (cr : cairo_t) (a : Arc)
    (h : |a.d| < ARC_EPSILON) :
    (cairo_demo_arc N cr a).cmds =
      cr.cmds ++ ([Cmd.move_to a.p0.x a.p0.y, Cmd.line_to a.p1.x a.p1.y, Cmd.stroke,
          Cmd.set_line_width (cr.line_width / 2)] ++
        demo_point_cmds (cr.line_width / 2) a.p0 ++
        demo_point_cmds (cr.line_width / 2) a.p1 ++
        [Cmd.set_line_width (cr.line_width / 2 * 2)]) := by
  simp [cairo_demo_arc, h, demo_point_spec, cairo_move_to, Cairo.cairo_move_to,
    cairo_line_to, Cairo.cairo_line_to, cairo_stroke, cairo_set_line_width,
    cairo_get_line_width]

/-- The calls of `cairo_demo_arc` for an arc at or above the threshold. -/
theorem cairo_demo_arc_round (N : Numerics) (cr : cairo_t) (a : Arc)
    (h : ARC_EPSILON ≤ |a.d|) :
    (cairo_demo_arc N cr a).cmds =
      cr.cmds ++ ([Cmd.save, Cmd.set_line_width (cr.line_width / 3)] ++
        demo_point_cmds (cr.line_width / 3) a.p0 ++
        demo_point_cmds (cr.line_width / 3) a.p1 ++
        [Cmd.set_line_width (cr.line_width / 3 * 9), arc_cmd N a, Cmd.stroke]) := by
  have hn : ¬ |a.d| < ARC_EPSILON := not_lt.mpr h
  by_cases hd : a.d < 0
  · simp [cairo_demo_arc, hn, hd, arc_cmd, demo_point_spec, cairo_save, Cairo.cairo_arc,
      cairo_stroke, cairo_set_line_width, cairo_get_line_width]
  · simp [cairo_demo_arc, hn, hd, arc_cmd, demo_point_spec, cairo_save,
      Cairo.cairo_arc_negative, cairo_stroke, cairo_set_line_width, cairo_get_line_width]

theorem arc_cmd_not_line (N : Numerics) (a : Arc) : (arc_cmd N a).is_line = false := by
  unfold arc_cmd
  split <;> rfl

/-- The arc calls and the line calls among the calls of `cairo_demo_arc` for an arc at or
above the threshold. -/
theorem round_filters (N : Numerics) (a : Arc) (w : ℚ) :
    ([Cmd.save, Cmd.set_line_width (w / 3)] ++ demo_point_cmds (w / 3) a.p0 ++
        demo_point_cmds (w / 3) a.p1 ++
        [Cmd.set_line_width (w / 3 * 9), arc_cmd N a, Cmd.stroke]).filter Cmd.is_arc =
      [arc_cmd N a] ∧
    ([Cmd.save, Cmd.set_line_width (w / 3)] ++ demo_point_cmds (w / 3) a.p0 ++
        demo_point_cmds (w / 3) a.p1 ++
        [Cmd.set_line_width (w / 3 * 9), arc_cmd N a, Cmd.stroke]).filter Cmd.is_line =
      [Cmd.rel_line_to 0 0, Cmd.rel_line_to 0 0] := by
  have a1 : Cmd.is_arc Cmd.save = false := rfl
  have a2 : ∀ v, Cmd.is_arc (Cmd.set_line_width v) = false := fun _ => rfl
  have a3 : Cmd.is_arc Cmd.stroke = false := rfl
  have l1 : Cmd.is_line Cmd.save = false := rfl
  have l2 : ∀ v, Cmd.is_line (Cmd.set_line_width v) = false := fun _ => rfl
  have l3 : Cmd.is_line Cmd.stroke = false := rfl
  constructor
  · simp only [List.filter_append, (demo_point_cmds_lines _ _).2, List.filter_cons,
      List.filter_nil, a1, a2, a3, arc_cmd_is_arc]
    simp
  · simp only [List.filter_append, (demo_point_cmds_lines _ _).1, List.filter_cons,
      List.filter_nil, l1, l2, l3, arc_cmd_not_line]
    simp

/-- The arc calls and the line calls among the calls of `cairo_demo_arc` for an arc below
the threshold. -/
theorem flat_filters (a : Arc) (w : ℚ) :
    ([Cmd.move_to a.p0.x a.p0.y, Cmd.line_to a.p1.x a.p1.y, Cmd.stroke,
          Cmd.set_line_width (w / 2)] ++ demo_point_cmds (w / 2) a.p0 ++
        demo_point_cmds (w / 2) a.p1 ++ [Cmd.set_line_width (w / 2 * 2)]).filter Cmd.is_arc =
      [] ∧
    ([Cmd.move_to a.p0.x a.p0.y, Cmd.line_to a.p1.x a.p1.y, Cmd.stroke,
          Cmd.set_line_width (w / 2)] ++ demo_point_cmds (w / 2) a.p0 ++
        demo_point_cmds (w / 2) a.p1 ++ [Cmd.set_line_width (w / 2 * 2)]).filter Cmd.is_line =
      [Cmd.line_to a.p1.x a.p1.y, Cmd.rel_line_to 0 0, Cmd.rel_line_to 0 0] := by
  constructor
  · simp [List.filter_append, (demo_point_cmds_lines _ _).2, List.filter_cons, Cmd.is_arc]
  · simp [List.filter_append, (demo_point_cmds_lines _ _).1, List.filter_cons, Cmd.is_line]

/-- C9: for an arc at or above the threshold, `cairo_arc` makes exactly the one arc call
centred at the centre of `a.circle ()` with its radius, from the polar angle of
`a.p0 - c.c` to that of `a.p1 - c.c`; `cairo_demo_arc` makes that same call as its only
arc call; the call is `cairo_arc` when `a.d < 0` and `cairo_arc_negative` when `a.d > 0`,
and one of the two holds. -/
theorem arc_sweep_direction (N : Numerics) (cr : cairo_t) (a : Arc)
    (h : ARC_EPSILON ≤ |a.d|) :
    (a.d < 0 ∨ 0 < a.d) ∧
    (a.d < 0 →
      (cairo_arc N cr a).cmds = cr.cmds ++
        [Cmd.arc (N.circle a).c.x (N.circle a).c.y (N.circle a).r
          (N.angle (a.p0 - (N.circle a).c)) (N.angle (a.p1 - (N.circle a).c))] ∧
      (emitted cr (cairo_demo_arc N cr a)).filter Cmd.is_arc =
        [Cmd.arc (N.circle a).c.x (N.circle a).c.y (N.circle a).r
          (N.angle (a.p0 - (N.circle a).c)) (N.angle (a.p1 - (N.circle a).c))]) ∧
    (0 < a.d →
      (cairo_arc N cr a).cmds = cr.cmds ++
        [Cmd.arc_negative (N.circle a).c.x (N.circle a).c.y (N.circle a).r
          (N.angle (a.p0 - (N.circle a).c)) (N.angle (a.p1 - (N.circle a).c))] ∧
      (emitted cr (cairo_demo_arc N cr a)).filter Cmd.is_arc =
        [Cmd.arc_negative (N.circle a).c.x (N.circle a).c.y (N.circle a).r
          (N.angle (a.p0 - (N.circle a).c)) (N.angle (a.p1 - (N.circle a).c))]) := by
  have hpos : (0 : ℚ) < ARC_EPSILON := by norm_num [ARC_EPSILON]
  have hne : a.d ≠ 0 := by
    intro h0
    rw [h0, abs_zero] at h
    exact absurd hpos (not_lt.mpr h)
  have hdemo : (emitted cr (cairo_demo_arc N cr a)).filter Cmd.is_arc = [arc_cmd N a] := by
    rw [emitted_append cr _ _ (cairo_demo_arc_round N cr a h)]
    exact (round_filters N a cr.line_width).1
  refine ⟨lt_or_gt_of_ne hne, ?_, ?_⟩
  · intro hd
    have hc : arc_cmd N a = Cmd.arc (N.circle a).c.x (N.circle a).c.y (N.circle a).r
        (N.angle (a.p0 - (N.circle a).c)) (N.angle (a.p1 - (N.circle a).c)) := by
      simp [arc_cmd, hd]
    rw [cairo_arc_round N cr a h, hdemo, hc]
    exact ⟨rfl, rfl⟩
  · intro hd
    have hc : arc_cmd N a = Cmd.arc_negative (N.circle a).c.x (N.circle a).c.y
        (N.circle a).r (N.angle (a.p0 - (N.circle a).c))
        (N.angle (a.p1 - (N.circle a).c)) := by
      simp [arc_cmd, not_lt.mpr (le_of_lt hd)]
    rw [cairo_arc_round N cr a h, hdemo, hc]
    exact ⟨rfl, rfl⟩

/-- An instance of C9: the half circle with `d = -1`. -/
theorem arc_sweep_direction_witness :
    ARC_EPSILON ≤ |half_arc_neg.d| ∧ half_arc_neg.d < 0 ∧
    (cairo_arc sample_numerics fresh_cr half_arc_neg).cmds =
      fresh_cr.cmds ++
        [Cmd.arc (sample_numerics.circle half_arc_neg).c.x
          (sample_numerics.circle half_arc_neg).c.y (sample_numerics.circle half_arc_neg).r
          (sample_numerics.angle (half_arc_neg.p0 - (sample_numerics.circle half_arc_neg).c))
          (sample_numerics.angle
            (half_arc_neg.p1 - (sample_numerics.circle half_arc_neg).c))] :=
  ⟨by norm_num [ARC_EPSILON, half_arc_neg], by norm_num [half_arc_neg],
    ((arc_sweep_direction sample_numerics fresh_cr half_arc_neg
      (by norm_num [ARC_EPSILON, half_arc_neg])).2.1 (by norm_num [half_arc_neg])).1⟩

/-- C7, as stated, fails: on a half circle `cairo_demo_arc` makes, besides its arc call,
two `rel_line_to` calls; on an arc of curvature 0 it makes three line calls and not only
the one to `a.p1`; and `cairo_arc` on that arc makes two `line_to` calls, the first of
which runs from the current point `(5, 5)` to `a.p0`. -/
theorem demo_arc_draws_markers :
    (emitted fresh_cr (cairo_demo_arc sample_numerics fresh_cr half_arc)).filter Cmd.is_line =
      [Cmd.rel_line_to 0 0, Cmd.rel_line_to 0 0] ∧
    (emitted fresh_cr (cairo_demo_arc sample_numerics fresh_cr flat_arc)).filter Cmd.is_line =
      [Cmd.line_to 1 0, Cmd.rel_line_to 0 0, Cmd.rel_line_to 0 0] ∧
    moved_cr.current = some ⟨5, 5⟩ ∧
    emitted moved_cr (cairo_arc sample_numerics moved_cr flat_arc) =
      [Cmd.line_to 0 0, Cmd.line_to 1 0] := by
  refine ⟨?_, ?_, rfl, ?_⟩
  · rw [emitted_append fresh_cr _ _ (cairo_demo_arc_round sample_numerics fresh_cr half_arc
      (by norm_num [ARC_EPSILON, half_arc]))]
    exact (round_filters sample_numerics half_arc fresh_cr.line_width).2
  · rw [emitted_append fresh_cr _ _ (cairo_demo_arc_flat sample_numerics fresh_cr flat_arc
      (by norm_num [ARC_EPSILON, flat_arc]))]
    exact (flat_filters flat_arc fresh_cr.line_width).2
  · rw [emitted_append moved_cr _ _ (cairo_arc_flat sample_numerics moved_cr flat_arc
      (by norm_num [ARC_EPSILON, flat_arc]))]
    simp [flat_arc]

/-- C7, amended: for an arc below the threshold `cairo_arc`, and `CairoOutlineSink::arc`
through it, makes the two calls `line_to (a.p0)`, `line_to (a.p1)`, and `cairo_demo_arc`
makes `move_to (a.p0)`, `line_to (a.p1)`, `stroke`, then its two endpoint markers between
two line-width changes; none of these is an arc call.  For an arc at or above the
threshold `cairo_arc` makes one arc call and nothing else, and `cairo_demo_arc` makes the
same arc call once, after the two endpoint markers and followed by `stroke`, with no
`line_to`.  An endpoint marker is the seven calls of `cairo_demo_point`, whose only line
call is `rel_line_to (0, 0)`. -/
theorem arc_emitted_commands (N : Numerics) (cr : cairo_t) (a : Arc) :
    (|a.d| < ARC_EPSILON →
      (cairo_arc N cr a).cmds =
        cr.cmds ++ [Cmd.line_to a.p0.x a.p0.y, Cmd.line_to a.p1.x a.p1.y] ∧
      (CairoOutlineSink.arc N (CairoOutlineSink.mk cr) a).2.cr = cairo_arc N cr a ∧
      (cairo_demo_arc N cr a).cmds =
        cr.cmds ++ ([Cmd.move_to a.p0.x a.p0.y, Cmd.line_to a.p1.x a.p1.y, Cmd.stroke,
            Cmd.set_line_width (cr.line_width / 2)] ++
          demo_point_cmds (cr.line_width / 2) a.p0 ++
          demo_point_cmds (cr.line_width / 2) a.p1 ++
          [Cmd.set_line_width (cr.line_width / 2 * 2)]) ∧
      (emitted cr (cairo_arc N cr a)).filter Cmd.is_arc = [] ∧
      (emitted cr (cairo_demo_arc N cr a)).filter Cmd.is_arc = []) ∧
    (ARC_EPSILON ≤ |a.d| →
      ∃ c, c.is_arc = true ∧
        (cairo_arc N cr a).cmds = cr.cmds ++ [c] ∧
        (CairoOutlineSink.arc N (CairoOutlineSink.mk cr) a).2.cr = cairo_arc N cr a ∧
        (cairo_demo_arc N cr a).cmds =
          cr.cmds ++ ([Cmd.save, Cmd.set_line_width (cr.line_width / 3)] ++
            demo_point_cmds (cr.line_width / 3) a.p0 ++
            demo_point_cmds (cr.line_width / 3) a.p1 ++
            [Cmd.set_line_width (cr.line_width / 3 * 9), c, Cmd.stroke]) ∧
        (emitted cr (cairo_demo_arc N cr a)).filter Cmd.is_arc = [c] ∧
        (emitted cr (cairo_demo_arc N cr a)).filter Cmd.is_line =
          [Cmd.rel_line_to 0 0, Cmd.rel_line_to 0 0]) ∧
    (∀ (w : ℚ) (p : Point),
      demo_point_cmds w p =
        [Cmd.save, Cmd.set_line_cap_round, Cmd.move_to p.x p.y, Cmd.rel_line_to 0 0,
         Cmd.set_line_width (w * 3), Cmd.stroke, Cmd.restore] ∧
      (cairo_demo_point cr p).cmds = cr.cmds ++ demo_point_cmds cr.line_width p) := by
  refine ⟨?_, ?_, ?_⟩
  · intro h
    refine ⟨cairo_arc_flat N cr a h, rfl, cairo_demo_arc_flat N cr a h, ?_, ?_⟩
    · rw [emitted_append cr _ _ (cairo_arc_flat N cr a h)]
      simp [Cmd.is_arc]
    · rw [emitted_append cr _ _ (cairo_demo_arc_flat N cr a h)]
      exact (flat_filters a cr.line_width).1
  · intro h
    refine ⟨arc_cmd N a, arc_cmd_is_arc N a, cairo_arc_round N cr a h, rfl,
      cairo_demo_arc_round N cr a h, ?_, ?_⟩
    · rw [emitted_append cr _ _ (cairo_demo_arc_round N cr a h)]
      exact (round_filters N a cr.line_width).1
    · rw [emitted_append cr _ _ (cairo_demo_arc_round N cr a h)]
      exact (round_filters N a cr.line_width).2
  · intro w p
    exact ⟨rfl, by rw [demo_point_spec]⟩

/-- Instances of the amended C7: the arc of curvature 0, the half circle, and the arc whose
curvature is exactly the threshold, which takes the circle branch. -/
theorem arc_emitted_commands_witness :
    |flat_arc.d| < ARC_EPSILON ∧
    (cairo_arc sample_numerics fresh_cr flat_arc).cmds =
      fresh_cr.cmds ++ [Cmd.line_to flat_arc.p0.x flat_arc.p0.y,
        Cmd.line_to flat_arc.p1.x flat_arc.p1.y] ∧
    ARC_EPSILON ≤ |half_arc.d| ∧
    (∃ c, c.is_arc = true ∧
      (cairo_arc sample_numerics fresh_cr half_arc).cmds = fresh_cr.cmds ++ [c]) ∧
    ARC_EPSILON ≤ |threshold_arc.d| ∧ |threshold_arc.d| < 1 / 1000000 ∧
    (∃ c, c.is_arc = true ∧
      (cairo_arc sample_numerics fresh_cr threshold_arc).cmds = fresh_cr.cmds ++ [c]) :=
  ⟨by norm_num [ARC_EPSILON, flat_arc],
    ((arc_emitted_commands sample_numerics fresh_cr flat_arc).1
      (by norm_num [ARC_EPSILON, flat_arc])).1,
    by norm_num [ARC_EPSILON, half_arc],
    (((arc_emitted_commands sample_numerics fresh_cr half_arc).2.1
      (by norm_num [ARC_EPSILON, half_arc])).imp (fun _ hc => ⟨hc.1, hc.2.1⟩)),
    threshold_arc_round,
    by norm_num [threshold_arc, abs_of_pos],
    (((arc_emitted_commands sample_numerics fresh_cr threshold_arc).2.1
      threshold_arc_round).imp (fun _ hc => ⟨hc.1, hc.2.1⟩))⟩

end CairoHelper

end GLyphy
